import Mathlib

/-!
Verification of the core synchronization machinery of react-vtk-js.

Shallow embedding of:
 - the `View` component (src/unnamed/part_000): render-request flag, the
   render settle effect, `resetCamera`, prop defaulting (`DefaultProps`);
 - `SliceRepresentation` (src/src/core/SliceRepresentation.tsx): the
   data-availability visibility rule and the `colorDataRange` resolution;
 - `useColorTransferFunction` (src/unnamed/part_001): the LUT sync effect;
 - the utility hooks whose implementations are not part of the available
   sources (`useComparableEffect`, `useGetterRef`, `useBooleanAccumulator`,
   `DeletionRegistry`), modelled from the specification where noted.

Native engine calls (`renderer.resetCamera`, `renderWindow.render`,
`style.setCenterOfRotation`) are recorded in an event log so that ordering
and multiplicity of native invocations can be stated.
-/

namespace ReactVtkJs

/-- vtk.js `Vector3` (camera focal point etc.); the View layer only passes
these values through, so an exact-integer carrier is faithful. -/
abbrev Vec3 := Int × Int × Int

/-- vtk.js `Bounds` (6 numbers); passed through opaquely by the View layer. -/
abbrev Bounds := List Int

/-- One native graphics-engine invocation made by the View component. -/
inductive ViewEvent where
  /-- Native call `getRenderer().resetCamera(boundsToUse)`. -/
  | resetCameraCall (bounds : Option Bounds)
  /-- Native call `style.setCenterOfRotation(getCamera().getFocalPoint())`. -/
  | setCenterOfRotation (p : Vec3)
  /-- Native call `getRenderWindow().render()`. -/
  | renderCall
deriving DecidableEq, BEq, Repr

/-- State of one `View` component (src/unnamed/part_000).
`renderRequested` is the `useState` flag of line 225; `supportsCenterOfRotation`
models the dynamic check `'setCenterOfRotation' in getInteractorStyle()`;
`focalPoint` is the camera focal point; `log` records native calls in order. -/
@[ext]
structure ViewState where
  renderRequested : Bool
  supportsCenterOfRotation : Bool
  focalPoint : Vec3
  log : List ViewEvent
deriving DecidableEq, Repr

/-- Sets the flag: `const requestRender = () => setRenderRequested(true);`
(part_000 line 226). -/
def requestRender (s : ViewState) : ViewState :=
  { s with renderRequested := true }

/-- Clears the flag: `setRenderRequested(false)` (part_000 line 256). -/
def clearRenderRequested (s : ViewState) : ViewState :=
  { s with renderRequested := false }

/-- Record one native graphics-engine invocation. -/
def addEvent (e : ViewEvent) (s : ViewState) : ViewState :=
  { s with log := s.log ++ [e] }

/-- The `resetCamera` callback (part_000 lines 232-246):
`getRenderer().resetCamera(boundsToUse)`, then, when `autoCenterOfRotation`
is set and the interactor style supports it,
`style.setCenterOfRotation(getCamera().getFocalPoint())`. -/
def resetCamera (autoCenterOfRotation : Bool) (bounds : Option Bounds)
    (s : ViewState) : ViewState :=
  if autoCenterOfRotation && s.supportsCenterOfRotation then
    addEvent (ViewEvent.setCenterOfRotation s.focalPoint)
      (addEvent (ViewEvent.resetCameraCall bounds) s)
  else
    addEvent (ViewEvent.resetCameraCall bounds) s

/-- Native render `getRenderWindow().render()`: appends a render call to the log.
`raiseDuringRender` models a re-entrant `requestRender()` issued while the
native render executes. -/
def renderWindowRender (raiseDuringRender : Bool) (s : ViewState) : ViewState :=
  if raiseDuringRender then requestRender (addEvent ViewEvent.renderCall s)
  else addEvent ViewEvent.renderCall s

/-- The render settle effect (part_000 lines 250-258):

```
if (renderRequested) {
  if (autoResetCamera) { resetCamera(); }
  getRenderWindow().render();
  setRenderRequested(false);
}
```

A re-entrant `requestRender()` raised during `getRenderWindow().render()`
lands between the render call and the trailing `setRenderRequested(false)`;
the two queued state updates (`true` then `false`) leave the flag `false`,
exactly as React applies queued updates in order. -/
def settle (autoResetCamera autoCenterOfRotation raiseDuringRender : Bool)
    (s : ViewState) : ViewState :=
  if s.renderRequested then
    clearRenderRequested (renderWindowRender raiseDuringRender
      (if autoResetCamera then resetCamera autoCenterOfRotation none s else s))
  else s

/-- The public view API `resetCamera` (part_000 lines 281-284):
`resetCamera(boundsToUse); requestRender();`. -/
def viewApiResetCamera (autoCenterOfRotation : Bool) (bounds : Option Bounds)
    (s : ViewState) : ViewState :=
  requestRender (resetCamera autoCenterOfRotation bounds s)

/-- Recognizes a native `render()` invocation. -/
def isRenderCall : ViewEvent → Bool
  | ViewEvent.renderCall => true
  | _ => false

/-- Number of native `render()` invocations recorded in a log. -/
def countRenders (l : List ViewEvent) : Nat :=
  l.countP isRenderCall

/-- A freshly mounted view: no pending render request, nothing rendered yet,
an interactor style that supports `setCenterOfRotation`. -/
def initView : ViewState :=
  { renderRequested := false
    supportsCenterOfRotation := true
    focalPoint := (0, 0, 0)
    log := [] }

/-- The declarative props of a `View` that carry a default; `none` means the
prop was not supplied by the user (part_000 lines 37-145). -/
structure ViewProps where
  interactive : Option Bool
  autoResetCamera : Option Bool
  autoCenterOfRotation : Option Bool

/-- The prop values after defaulting. -/
structure ResolvedViewProps where
  interactive : Bool
  autoResetCamera : Bool
  autoCenterOfRotation : Bool
deriving DecidableEq, Repr

/-- The `DefaultProps` of the View (part_000 lines 147-151):
`interactive: true, autoResetCamera: true, autoCenterOfRotation: true`. -/
def DefaultProps : ResolvedViewProps :=
  { interactive := true
    autoResetCamera := true
    autoCenterOfRotation := true }

/-- Prop defaulting at the top of the View component (part_000 lines 197-204):
each destructured prop falls back to the corresponding `DefaultProps` field. -/
def resolveViewProps (p : ViewProps) : ResolvedViewProps :=
  { interactive := p.interactive.getD DefaultProps.interactive
    autoResetCamera := p.autoResetCamera.getD DefaultProps.autoResetCamera
    autoCenterOfRotation := p.autoCenterOfRotation.getD DefaultProps.autoCenterOfRotation }

/-- A view created without explicit configuration supplies none of the props. -/
def unconfiguredViewProps : ViewProps :=
  { interactive := none
    autoResetCamera := none
    autoCenterOfRotation := none }

/-- State `const [dataAvailable, setDataAvailable] = useState(false)` together with
`dataAvailable: (available = true) => setDataAvailable(available)`
(SliceRepresentation.tsx lines 153 and 318-321): each report overwrites the
state, which starts `false`; the value after a sequence of reports is the
last reported value. -/
def dataAvailableAfter (reports : List Bool) : Bool :=
  reports.foldl (fun _ b => b) false

/-- The actor visibility of a slice representation
(SliceRepresentation.tsx line 192):
`visibility: dataAvailable && (props.actor?.visibility ?? true)`.
`declared` is `props.actor?.visibility`; `none` when the actor props or the
visibility field are absent. -/
def actorVisibility (reports : List Bool) (declared : Option Bool) : Bool :=
  dataAvailableAfter reports && declared.getD true

/-- The `colorDataRange` prop of a slice representation: either the literal
string `'auto'` or a 2-vector (SliceRepresentation.tsx lines 74, 133). -/
inductive ColorDataRangeProp where
  | auto
  | range (lo hi : ℚ)
deriving DecidableEq, Repr

/-- Resolution of the color data range (SliceRepresentation.tsx
lines 155-157): `rangeFromProps = props.colorDataRange ?? 'auto'` and
`colorDataRange = rangeFromProps === 'auto' ? [0, 1] : rangeFromProps`.
The resolution is a function of the prop alone; no input-data scalar range
enters it. -/
def resolveColorDataRange (p : Option ColorDataRangeProp) : ℚ × ℚ :=
  match p.getD ColorDataRangeProp.auto with
  | ColorDataRangeProp.auto => (0, 1)
  | ColorDataRangeProp.range lo hi => (lo, hi)

/-- Resolution `props.colorMapPreset ?? DefaultProps.colorMapPreset` with
`colorMapPreset: 'Grayscale'` (SliceRepresentation.tsx lines 131-134, 162). -/
def resolveColorMapPreset (p : Option String) : String :=
  p.getD "Grayscale"

/-- Observable state of a color transfer function handle. -/
structure LutState where
  appliedPreset : Option String
  mappingRange : Option (ℚ × ℚ)
deriving DecidableEq, Repr

/-- A freshly constructed color transfer function. -/
def initLut : LutState :=
  { appliedPreset := none, mappingRange := none }

/-- The synchronization action of `useColorTransferFunction`
(part_001 lines 30-40): when the preset name is falsy (the empty string)
the action returns early; otherwise it applies the color map preset and
calls `lut.setMappingRange(range[0], range[1])`. -/
def lutSyncEffect (presetName : String) (range : ℚ × ℚ) (s : LutState) : LutState :=
  if presetName = "" then s
  else { appliedPreset := some presetName, mappingRange := some range }

/-- Modelled from the spec: the implementation of `useComparableEffect`
(src/utils/useComparableEffect.ts) is not among the available sources; only
its call sites are (part_001 lines 29-44, SliceRepresentation.tsx lines
224-231). Per spec section 4.3 the runner keeps the previous input tuple and
a record of executions of the wrapped action. -/
structure ComparableEffectState (α : Type) where
  prev : Option α
  runCount : Nat

/-- Modelled from the spec: before the first invocation no previous tuple
exists and the action has never run. -/
def freshComparableEffect {α : Type} : ComparableEffectState α :=
  { prev := none, runCount := 0 }

/-- Modelled from the spec: one invocation of the Comparable-Effect Runner
with current tuple `cur` (spec section 4.3) — it runs the action only if the
user-supplied comparator fails against the stored previous tuple, or no
previous tuple exists (the first run always executes); after running it
stores the current tuple as the new previous tuple, including on the very
first invocation. The comparator receives the current tuple first, matching
the call sites. -/
def runComparableEffect {α : Type} (cmp : α → α → Bool) (cur : α)
    (s : ComparableEffectState α) : ComparableEffectState α :=
  match s.prev with
  | none => { prev := some cur, runCount := s.runCount + 1 }
  | some p =>
    if cmp cur p then s
    else { prev := some cur, runCount := s.runCount + 1 }

/-- Modelled from the spec: the implementation of `useGetterRef`
(src/utils/useGetterRef.ts) is not among the available sources; only its
call site is (part_001 lines 18-22). Per spec section 4.1 a Handle Cache
slot holds at most one constructed handle; `factoryCalls` counts factory
invocations. -/
structure GetterRefState (α : Type) where
  cell : Option α
  factoryCalls : Nat

/-- Modelled from the spec: a slot that has not constructed its handle yet. -/
def freshGetterRef {α : Type} : GetterRefState α :=
  { cell := none, factoryCalls := 0 }

/-- Modelled from the spec: the `get()` accessor of a Handle Cache slot
(spec section 4.1) — on first call it invokes the no-argument factory
exactly once and stores the result; on subsequent calls it returns the
stored handle without re-invoking the factory. -/
def getterGet {α : Type} (factory : Unit → α) (s : GetterRefState α) :
    α × GetterRefState α :=
  match s.cell with
  | some v => (v, s)
  | none => (factory (), { cell := some (factory ()), factoryCalls := s.factoryCalls + 1 })

/-- The state transition of one `get()` call. -/
def getterStep {α : Type} (factory : Unit → α) (s : GetterRefState α) :
    GetterRefState α :=
  (getterGet factory s).2

/-- Modelled from the spec: the implementation of `useBooleanAccumulator`
(src/utils/useBooleanAccumulator.ts) is not among the available sources;
only its call sites are (SliceRepresentation.tsx lines 152 and 305-310).
Per spec section 4.2, `mark(changed)` ORs `changed` into the sticky flag. -/
def markAccumulator (flag changed : Bool) : Bool :=
  flag || changed

/-- Modelled from the spec: `consume()` reads and clears the sticky flag
(spec section 4.2); it returns the read value and the cleared flag. -/
def consumeAccumulator (flag : Bool) : Bool × Bool :=
  (flag, false)

/-- Modelled from the spec: the `DeletionRegistry`
(src/utils/DeletionRegistry.ts) is not among the available sources; only its
call sites are (part_001 lines 18-22 and 46-51). Per spec section 4.4 it
holds a FIFO queue of handles pending deletion; handles are identified by a
numeric id. -/
structure DeletionRegistry where
  queue : List Nat
deriving DecidableEq, Repr

/-- Modelled from the spec: a registry with an empty queue. -/
def emptyRegistry : DeletionRegistry :=
  { queue := [] }

/-- Modelled from the spec: `registerForDeletion(handle)` enqueues the
handle's deletion callback if not already enqueued (spec section 4.4). -/
def registerForDeletion (r : DeletionRegistry) (h : Nat) : DeletionRegistry :=
  if h ∈ r.queue then r else { queue := r.queue ++ [h] }

/-- Modelled from the spec: `flush()` executes every queued deletion
callback in FIFO order, then clears the queue (spec section 4.4); it returns
the ordered list of handles whose deletion callbacks run, and the cleared
registry. -/
def flush (r : DeletionRegistry) : List Nat × DeletionRegistry :=
  (r.queue, { queue := [] })

/-- First-occurrence deduplication of a list: keeps each element once, at
the position of its first occurrence. -/
def dedupFirst : List Nat → List Nat
  | [] => []
  | h :: t => h :: dedupFirst (t.filter (fun x => x != h))
termination_by l => l.length
decreasing_by
  simp_wf
  exact Nat.lt_succ_of_le (List.length_filter_le _ _)

/-- First-occurrence deduplication relative to an already-seen prefix; the
`seen` list plays the role of the registry queue built so far. -/
def dedupFrom (seen : List Nat) : List Nat → List Nat
  | [] => []
  | h :: t => if h ∈ seen then dedupFrom seen t else h :: dedupFrom (seen ++ [h]) t

@[simp] theorem addEvent_log (e : ViewEvent) (s : ViewState) :
    (addEvent e s).log = s.log ++ [e] := rfl

@[simp] theorem addEvent_renderRequested (e : ViewEvent) (s : ViewState) :
    (addEvent e s).renderRequested = s.renderRequested := rfl

@[simp] theorem addEvent_supports (e : ViewEvent) (s : ViewState) :
    (addEvent e s).supportsCenterOfRotation = s.supportsCenterOfRotation := rfl

@[simp] theorem addEvent_focalPoint (e : ViewEvent) (s : ViewState) :
    (addEvent e s).focalPoint = s.focalPoint := rfl

@[simp] theorem requestRender_renderRequested (s : ViewState) :
    (requestRender s).renderRequested = true := rfl

@[simp] theorem requestRender_log (s : ViewState) :
    (requestRender s).log = s.log := rfl

@[simp] theorem requestRender_supports (s : ViewState) :
    (requestRender s).supportsCenterOfRotation = s.supportsCenterOfRotation := rfl

@[simp] theorem requestRender_focalPoint (s : ViewState) :
    (requestRender s).focalPoint = s.focalPoint := rfl

@[simp] theorem clearRenderRequested_renderRequested (s : ViewState) :
    (clearRenderRequested s).renderRequested = false := rfl

@[simp] theorem clearRenderRequested_log (s : ViewState) :
    (clearRenderRequested s).log = s.log := rfl

@[simp] theorem clearRenderRequested_supports (s : ViewState) :
    (clearRenderRequested s).supportsCenterOfRotation = s.supportsCenterOfRotation := rfl

@[simp] theorem clearRenderRequested_focalPoint (s : ViewState) :
    (clearRenderRequested s).focalPoint = s.focalPoint := rfl

theorem resetCamera_log (acr : Bool) (b : Option Bounds) (s : ViewState) :
    (resetCamera acr b s).log =
      s.log ++ [ViewEvent.resetCameraCall b] ++
        (if acr && s.supportsCenterOfRotation then
          [ViewEvent.setCenterOfRotation s.focalPoint] else []) := by
  unfold resetCamera
  split <;> simp

@[simp] theorem resetCamera_renderRequested (acr : Bool) (b : Option Bounds)
    (s : ViewState) :
    (resetCamera acr b s).renderRequested = s.renderRequested := by
  unfold resetCamera
  split <;> rfl

@[simp] theorem resetCamera_supports (acr : Bool) (b : Option Bounds)
    (s : ViewState) :
    (resetCamera acr b s).supportsCenterOfRotation = s.supportsCenterOfRotation := by
  unfold resetCamera
  split <;> rfl

@[simp] theorem resetCamera_focalPoint (acr : Bool) (b : Option Bounds)
    (s : ViewState) :
    (resetCamera acr b s).focalPoint = s.focalPoint := by
  unfold resetCamera
  split <;> rfl

@[simp] theorem renderWindowRender_log (rr : Bool) (s : ViewState) :
    (renderWindowRender rr s).log = s.log ++ [ViewEvent.renderCall] := by
  unfold renderWindowRender
  split <;> rfl

@[simp] theorem renderWindowRender_supports (rr : Bool) (s : ViewState) :
    (renderWindowRender rr s).supportsCenterOfRotation = s.supportsCenterOfRotation := by
  unfold renderWindowRender
  split <;> rfl

@[simp] theorem renderWindowRender_focalPoint (rr : Bool) (s : ViewState) :
    (renderWindowRender rr s).focalPoint = s.focalPoint := by
  unfold renderWindowRender
  split <;> rfl

@[simp] theorem countRenders_nil : countRenders [] = 0 := rfl

@[simp] theorem countRenders_append (l1 l2 : List ViewEvent) :
    countRenders (l1 ++ l2) = countRenders l1 + countRenders l2 := by
  simp [countRenders, List.countP_append]

@[simp] theorem countRenders_resetCameraCall (b : Option Bounds) :
    countRenders [ViewEvent.resetCameraCall b] = 0 := rfl

@[simp] theorem countRenders_setCenterOfRotation (p : Vec3) :
    countRenders [ViewEvent.setCenterOfRotation p] = 0 := rfl

@[simp] theorem countRenders_renderCall :
    countRenders [ViewEvent.renderCall] = 1 := rfl

@[simp] theorem countRenders_resetCamera (acr : Bool) (b : Option Bounds)
    (s : ViewState) :
    countRenders (resetCamera acr b s).log = countRenders s.log := by
  rw [resetCamera_log]
  split <;> simp [countRenders, List.countP_append, List.countP_cons, isRenderCall]

theorem requestRender_idem (s : ViewState) :
    requestRender (requestRender s) = requestRender s := rfl

theorem requestRender_iterate_of_pos :
    ∀ (n : Nat), 1 ≤ n → ∀ (s : ViewState), requestRender^[n] s = requestRender s := by
  intro n
  induction n with
  | zero => intro h; exact absurd h (by decide)
  | succ k ih =>
    intro _ s
    rcases Nat.eq_zero_or_pos k with hk | hk
    · subst hk; rfl
    · rw [Function.iterate_succ_apply, ih hk (requestRender s), requestRender_idem]

/-- Claim C1 (amended): for every update cycle in which `requestRender()` is
called one or more times, the following settle step invokes the native
render-window `render()` exactly once and then clears the pending-render
flag; a `requestRender()` raised during the render itself is overwritten by
the trailing `setRenderRequested(false)`, so the flag is down after the
settle step (it is neither rendered recursively nor deferred). -/
theorem C1_render_coalescing (n : Nat) (ar acr rr : Bool) (s : ViewState)
    (h : 1 ≤ n) :
    countRenders (settle ar acr rr (requestRender^[n] s)).log
      = countRenders s.log + 1 ∧
    (settle ar acr rr (requestRender^[n] s)).renderRequested = false := by
  rw [requestRender_iterate_of_pos n h s]
  cases ar <;> simp [settle]

/-- Witness for C1: three `requestRender()` calls on a fresh view produce
exactly one native render at the settle step and leave the flag cleared. -/
theorem C1_render_coalescing_witness :
    1 ≤ 3 ∧
    (countRenders (settle true true false (requestRender^[3] initView)).log
        = countRenders initView.log + 1 ∧
      (settle true true false (requestRender^[3] initView)).renderRequested = false) :=
  ⟨by decide, C1_render_coalescing 3 true true false initView (by decide)⟩

/-- Counterexample for C1 as stated: the claim says a `requestRender()`
raised during the render itself is deferred to the next cycle; in the code
the `setRenderRequested(false)` that follows `getRenderWindow().render()`
overwrites the re-entrant request, so after the settle step the flag is
`false` and the next settle step performs no render at all. -/
theorem C1_reentrant_request_dropped :
    (settle true true true (requestRender initView)).renderRequested = false ∧
    countRenders (settle true true false
        (settle true true true (requestRender initView))).log
      = countRenders (settle true true true (requestRender initView)).log := by
  decide

/-- Claim C3: when the pending-render flag is set at the settle step and
auto-reset-camera is enabled, the settle step first calls the renderer's
`resetCamera` — then, if auto-center-of-rotation is enabled and the active
interactor style supports `setCenterOfRotation`, re-centers rotation on the
camera's current focal point — then invokes exactly one native render call,
then clears the flag. The full-state equation fixes both the order and the
multiplicity of the native calls. -/
theorem C3_settle_order (acr : Bool) (s : ViewState)
    (h : s.renderRequested = true) :
    settle true acr false s =
      { renderRequested := false
        supportsCenterOfRotation := s.supportsCenterOfRotation
        focalPoint := s.focalPoint
        log := s.log ++ [ViewEvent.resetCameraCall none] ++
          (if acr && s.supportsCenterOfRotation then
            [ViewEvent.setCenterOfRotation s.focalPoint] else []) ++
          [ViewEvent.renderCall] } := by
  have hs : settle true acr false s =
      clearRenderRequested (renderWindowRender false (resetCamera acr none s)) := by
    simp [settle, h]
  rw [hs]
  apply ViewState.ext <;> simp [resetCamera_log, List.append_assoc]

/-- Witness for C3: a fresh view with a pending request settles into a
reset-camera call, a center-of-rotation update, and one render. -/
theorem C3_settle_order_witness :
    settle true true false (requestRender initView) =
      { renderRequested := false
        supportsCenterOfRotation := true
        focalPoint := (0, 0, 0)
        log := [ViewEvent.resetCameraCall none,
          ViewEvent.setCenterOfRotation (0, 0, 0), ViewEvent.renderCall] } := by
  have h := C3_settle_order true (requestRender initView) rfl
  simpa using h

/-- Claim C9: the public view API's `resetCamera(bounds?)` performs the
camera reset immediately (the reset, and when applicable the
center-of-rotation update, are appended to the native-call log at once) and
sets the pending-render flag, so the next settle step always performs
exactly one native render. -/
theorem C9_resetCamera_requests_render (acr ar rr : Bool) (b : Option Bounds)
    (s : ViewState) :
    (viewApiResetCamera acr b s).renderRequested = true ∧
    (viewApiResetCamera acr b s).log =
      s.log ++ [ViewEvent.resetCameraCall b] ++
        (if acr && s.supportsCenterOfRotation then
          [ViewEvent.setCenterOfRotation s.focalPoint] else []) ∧
    countRenders (settle ar acr rr (viewApiResetCamera acr b s)).log
      = countRenders s.log + 1 := by
  refine ⟨rfl, ?_, ?_⟩
  · simp [viewApiResetCamera, resetCamera_log]
  · cases ar <;> simp [settle, viewApiResetCamera]

/-- Claim C8: for every view created without explicit configuration, the
auto-reset-camera toggle and the auto-center-of-rotation toggle default to on
(true), and interaction is enabled by default. -/
theorem C8_view_default_toggles :
    (resolveViewProps unconfiguredViewProps).autoResetCamera = true ∧
    (resolveViewProps unconfiguredViewProps).autoCenterOfRotation = true ∧
    (resolveViewProps unconfiguredViewProps).interactive = true := by
  refine ⟨rfl, rfl, rfl⟩

theorem foldl_replace_of_no_true :
    ∀ (reports : List Bool), true ∉ reports →
      reports.foldl (fun _ b => b) false = false := by
  intro reports
  induction reports with
  | nil => intro _; rfl
  | cons h t ih =>
    intro hmem
    have hh : h = false := by
      cases h
      · rfl
      · exact absurd (List.mem_cons_self _ _) hmem
    simp only [List.foldl_cons]
    rw [hh]
    exact ih (fun ht => hmem (List.mem_cons_of_mem _ ht))

theorem foldl_replace_eq_getLastD :
    ∀ (l : List Bool) (a : Bool), l.foldl (fun _ b => b) a = l.getLastD a := by
  intro l
  induction l with
  | nil => intro a; rfl
  | cons h t ih =>
    intro a
    simp only [List.foldl_cons, List.getLastD_cons]
    exact ih h

/-- Claim C2 (amended): before data availability has ever been reported
true, the actor's visibility is false regardless of the declared visibility
prop; at every point the visibility equals the most recently reported
availability (initially false) AND-ed with the declared setting (default
true) — in particular a later false report re-hides the actor, so
visibility does not simply equal the declared setting until unmount. -/
theorem C2_visibility_follows_latest_report (reports : List Bool)
    (declared : Option Bool) :
    (true ∉ reports → actorVisibility reports declared = false) ∧
    (reports.getLast? = some true →
      actorVisibility reports declared = declared.getD true) ∧
    (reports.getLast? = some false → actorVisibility reports declared = false) := by
  refine ⟨?_, ?_, ?_⟩
  · intro h
    unfold actorVisibility dataAvailableAfter
    rw [foldl_replace_of_no_true reports h]
    rfl
  · intro h
    unfold actorVisibility dataAvailableAfter
    rw [foldl_replace_eq_getLastD, List.getLastD_eq_getLast?, h]
    simp
  · intro h
    unfold actorVisibility dataAvailableAfter
    rw [foldl_replace_eq_getLastD, List.getLastD_eq_getLast?, h]
    rfl

/-- Witness for C2: a single true report with declared visibility true makes
the actor visible. -/
theorem C2_visibility_follows_latest_report_witness :
    (([true] : List Bool).getLast? = some true) ∧
    actorVisibility [true] (some true) = (some true).getD true :=
  ⟨by decide,
    (C2_visibility_follows_latest_report [true] (some true)).2.1 (by decide)⟩

/-- Counterexample for C2 as stated: with declared visibility true and the
report sequence [true, false] — availability reported true and then false,
both before unmount — the claim requires the visibility to equal the
declared setting (true) from the first true report until unmount, but the
actor visibility is false: the code follows the latest report and is not a
one-way latch. -/
theorem C2_visibility_counterexample :
    ¬ actorVisibility [true, false] (some true) = (some true).getD true := by
  decide

/-- Claim C10: when a slice representation's `colorDataRange` prop is
`'auto'` or omitted, the color transfer function's mapping range is set to
exactly `[0, 1]`. `resolveColorDataRange` is a function of the prop alone —
no input-data scalar range enters the computation. The preset-name
hypothesis reflects the LUT sync effect's early return on a falsy preset
name; the default preset `'Grayscale'` satisfies it. -/
theorem C10_auto_color_range (p : Option ColorDataRangeProp)
    (preset : Option String) (s : LutState)
    (hp : p = none ∨ p = some ColorDataRangeProp.auto)
    (hname : resolveColorMapPreset preset ≠ "") :
    (lutSyncEffect (resolveColorMapPreset preset)
      (resolveColorDataRange p) s).mappingRange = some (0, 1) := by
  have hr : resolveColorDataRange p = (0, 1) := by
    rcases hp with h | h <;> subst h <;> rfl
  rw [hr]
  unfold lutSyncEffect
  rw [if_neg hname]

/-- Witness for C10: omitted `colorDataRange` and omitted `colorMapPreset`
on a fresh LUT give mapping range `[0, 1]`. -/
theorem C10_auto_color_range_witness :
    ((none : Option ColorDataRangeProp) = none ∨
      (none : Option ColorDataRangeProp) = some ColorDataRangeProp.auto) ∧
    resolveColorMapPreset none ≠ "" ∧
    (lutSyncEffect (resolveColorMapPreset none)
      (resolveColorDataRange none) initLut).mappingRange = some (0, 1) :=
  ⟨Or.inl rfl, by decide, C10_auto_color_range none none initLut (Or.inl rfl) (by decide)⟩

/-- Claim C4: invoking the Comparable-Effect Runner twice in succession with
input tuples the supplied comparator judges structurally equal executes the
wrapped synchronization action exactly once — on the first invocation, which
always executes and stores the current tuple as the new previous tuple; the
second invocation leaves the state unchanged. -/
theorem C4_comparable_effect_runs_once {α : Type} (cmp : α → α → Bool)
    (a b : α) (h : cmp b a = true) :
    (runComparableEffect cmp a freshComparableEffect).runCount = 1 ∧
    (runComparableEffect cmp a freshComparableEffect).prev = some a ∧
    runComparableEffect cmp b (runComparableEffect cmp a freshComparableEffect)
      = runComparableEffect cmp a freshComparableEffect := by
  refine ⟨rfl, rfl, ?_⟩
  simp [runComparableEffect, freshComparableEffect, h]

/-- Witness for C4: two runs with the identical pair (7, 7) under boolean
equality execute the action once and keep the stored tuple. -/
theorem C4_comparable_effect_runs_once_witness :
    ((fun x y : Nat => x == y) 7 7 = true) ∧
    ((runComparableEffect (fun x y : Nat => x == y) 7 freshComparableEffect).runCount = 1 ∧
      (runComparableEffect (fun x y : Nat => x == y) 7 freshComparableEffect).prev = some 7 ∧
      runComparableEffect (fun x y : Nat => x == y) 7
          (runComparableEffect (fun x y : Nat => x == y) 7 freshComparableEffect)
        = runComparableEffect (fun x y : Nat => x == y) 7 freshComparableEffect) :=
  ⟨by decide, C4_comparable_effect_runs_once (fun x y : Nat => x == y) 7 7 (by decide)⟩

/-- Claim C5: for every Handle Cache slot, the first call to `get()` invokes
the no-argument factory exactly once and stores the resulting handle; every
subsequent call — any number of them — returns the identical stored handle
and leaves the slot unchanged, so the factory is never re-invoked
(`factoryCalls` stays 1). -/
theorem C5_handle_cache {α : Type} (factory : Unit → α) (n : Nat) :
    (getterGet factory (freshGetterRef (α := α))).1 = factory () ∧
    (getterStep factory (freshGetterRef (α := α))).factoryCalls = 1 ∧
    (getterStep factory)^[n] (getterStep factory (freshGetterRef (α := α)))
      = getterStep factory (freshGetterRef (α := α)) ∧
    (getterGet factory ((getterStep factory)^[n]
      (getterStep factory (freshGetterRef (α := α))))).1 = factory () := by
  refine ⟨rfl, rfl, Function.iterate_fixed rfl n, ?_⟩
  rw [Function.iterate_fixed rfl n]
  rfl

theorem foldl_mark_eq_true_iff :
    ∀ (l : List Bool) (b : Bool),
      (l.foldl markAccumulator b = true ↔ (b = true ∨ true ∈ l)) := by
  intro l
  induction l with
  | nil => intro b; simp
  | cons h t ih =>
    intro b
    simp only [List.foldl_cons, markAccumulator]
    rw [ih (b || h)]
    cases b <;> cases h <;> simp

/-- Claim C6: for every sequence of `mark(b)` calls within one
synchronization pass, `consume()` returns true iff at least one call was
`mark(true)`; consuming clears the flag, so a subsequent `consume()` with no
intervening `mark(true)` returns false. -/
theorem C6_dirty_accumulator (l m : List Bool) (hm : true ∉ m) :
    ((consumeAccumulator (l.foldl markAccumulator false)).1 = true ↔ true ∈ l) ∧
    (consumeAccumulator (m.foldl markAccumulator
      (consumeAccumulator (l.foldl markAccumulator false)).2)).1 = false := by
  constructor
  · show l.foldl markAccumulator false = true ↔ true ∈ l
    rw [foldl_mark_eq_true_iff]
    simp
  · show m.foldl markAccumulator false = false
    cases hv : m.foldl markAccumulator false with
    | false => rfl
    | true =>
      exact absurd
        (((foldl_mark_eq_true_iff m false).1 hv).resolve_left (by decide)) hm

/-- Witness for C6: marks [false, true] then a consume returns true; after
the consume, marks [false] and a second consume returns false. -/
theorem C6_dirty_accumulator_witness :
    (true ∉ ([false] : List Bool)) ∧
    (((consumeAccumulator (([false, true] : List Bool).foldl markAccumulator false)).1 = true ↔
        true ∈ ([false, true] : List Bool)) ∧
      (consumeAccumulator (([false] : List Bool).foldl markAccumulator
        (consumeAccumulator (([false, true] : List Bool).foldl markAccumulator false)).2)).1 = false) :=
  ⟨by decide, C6_dirty_accumulator [false, true] [false] (by decide)⟩

theorem foldl_register_queue :
    ∀ (regs : List Nat) (q : List Nat),
      (regs.foldl registerForDeletion { queue := q }).queue = q ++ dedupFrom q regs := by
  intro regs
  induction regs with
  | nil => intro q; simp [dedupFrom]
  | cons h t ih =>
    intro q
    by_cases hq : h ∈ q
    · simp only [List.foldl_cons, registerForDeletion, dedupFrom, hq, if_true]
      exact ih q
    · simp only [List.foldl_cons, registerForDeletion, dedupFrom, hq, if_false]
      rw [ih (q ++ [h])]
      simp [List.append_assoc]

theorem dedupFirst_nil : dedupFirst [] = [] := by
  rw [dedupFirst.eq_def]

theorem dedupFirst_cons (h : Nat) (t : List Nat) :
    dedupFirst (h :: t) = h :: dedupFirst (t.filter (fun x => x != h)) := by
  rw [dedupFirst.eq_def]

theorem dedupFrom_filter :
    ∀ (regs seen : List Nat),
      dedupFrom seen regs = dedupFirst (regs.filter (fun x => decide (x ∉ seen))) := by
  intro regs
  induction regs with
  | nil => intro seen; simp [dedupFrom, dedupFirst_nil]
  | cons h t ih =>
    intro seen
    by_cases hh : h ∈ seen
    · rw [dedupFrom, if_pos hh, List.filter_cons]
      have hd : (decide (h ∉ seen)) = false := by simp [hh]
      rw [hd, if_neg (by decide : ¬((false : Bool) = true))]
      exact ih seen
    · rw [dedupFrom, if_neg hh, List.filter_cons]
      have hd : (decide (h ∉ seen)) = true := by simp [hh]
      rw [hd, if_pos (rfl : (true : Bool) = true)]
      rw [dedupFirst_cons]
      congr 1
      rw [ih (seen ++ [h])]
      congr 1
      rw [List.filter_filter]
      apply List.filter_congr
      intro x _
      by_cases h1 : x ∈ seen <;> by_cases h2 : x = h <;>
        simp [h1, h2, List.mem_append]

theorem dedupFrom_mem :
    ∀ (regs seen : List Nat) (x : Nat),
      (x ∈ dedupFrom seen regs ↔ (x ∈ regs ∧ x ∉ seen)) := by
  intro regs
  induction regs with
  | nil => intro seen x; simp [dedupFrom]
  | cons h t ih =>
    intro seen x
    by_cases hh : h ∈ seen
    · rw [dedupFrom, if_pos hh, ih]
      simp only [List.mem_cons]
      constructor
      · rintro ⟨hx, hn⟩
        exact ⟨Or.inr hx, hn⟩
      · rintro ⟨hx | hx, hn⟩
        · exact absurd (hx ▸ hh) hn
        · exact ⟨hx, hn⟩
    · rw [dedupFrom, if_neg hh]
      simp only [List.mem_cons]
      rw [ih]
      have hseen : (x ∉ seen ++ [h]) ↔ (x ∉ seen ∧ x ≠ h) := by
        simp [List.mem_append, not_or]
      rw [hseen]
      constructor
      · rintro (rfl | ⟨hx, hn1, hn2⟩)
        · exact ⟨Or.inl rfl, hh⟩
        · exact ⟨Or.inr hx, hn1⟩
      · rintro ⟨rfl | hx, hn⟩
        · exact Or.inl rfl
        · by_cases hxh : x = h
          · exact Or.inl hxh
          · exact Or.inr ⟨hx, hn, hxh⟩

theorem dedupFrom_nodup :
    ∀ (regs seen : List Nat), (dedupFrom seen regs).Nodup := by
  intro regs
  induction regs with
  | nil => intro seen; simp [dedupFrom]
  | cons h t ih =>
    intro seen
    by_cases hh : h ∈ seen
    · rw [dedupFrom, if_pos hh]
      exact ih seen
    · rw [dedupFrom, if_neg hh]
      refine List.nodup_cons.mpr ⟨?_, ih (seen ++ [h])⟩
      intro hmem
      have hm := (dedupFrom_mem t (seen ++ [h]) h).1 hmem
      exact hm.2 (List.mem_append.2 (Or.inr (List.mem_singleton.2 rfl)))

/-- Claim C7: for every sequence of deletion registrations, flushing the
Deletion Registry executes each distinct handle's deletion callback exactly
once, in the FIFO order of first registration, then clears the queue;
re-registering an already-queued handle adds no duplicate entry. In
particular registering 1, 2, 1 then flushing deletes 1 then 2, once each. -/
theorem C7_deletion_registry_fifo_dedup (regs : List Nat) :
    (flush (regs.foldl registerForDeletion emptyRegistry)).1 = dedupFirst regs ∧
    (flush (regs.foldl registerForDeletion emptyRegistry)).1.Nodup ∧
    (∀ h, h ∈ (flush (regs.foldl registerForDeletion emptyRegistry)).1 ↔ h ∈ regs) ∧
    (flush (regs.foldl registerForDeletion emptyRegistry)).2 = emptyRegistry ∧
    (flush (([1, 2, 1] : List Nat).foldl registerForDeletion emptyRegistry)).1 = [1, 2] := by
  have hq : (regs.foldl registerForDeletion emptyRegistry).queue = dedupFrom [] regs := by
    have hfold := foldl_register_queue regs []
    simpa [emptyRegistry] using hfold
  refine ⟨?_, ?_, ?_, rfl, by decide⟩
  · show (regs.foldl registerForDeletion emptyRegistry).queue = dedupFirst regs
    rw [hq, dedupFrom_filter]
    congr 1
    simp
  · show ((regs.foldl registerForDeletion emptyRegistry).queue).Nodup
    rw [hq]
    exact dedupFrom_nodup regs []
  · intro h
    show h ∈ (regs.foldl registerForDeletion emptyRegistry).queue ↔ h ∈ regs
    rw [hq, dedupFrom_mem]
    simp

end ReactVtkJs
